import Mathlib

/-!
Shallow embedding of the hydrocore LCOH model (src/h2_cost_model.py and
src/lcoh_calculator.py).

Conventions of the embedding:
* Python floats are modelled as exact rationals (`ℚ`); the transcendental
  `np.log` used by the price-distribution generator is modelled over `ℝ`
  with `Real.log`.
* Fallible Python arithmetic is modelled in the `Except PyErr` monad:
  `pydiv` raises `ZeroDivisionError` exactly when the Python `/` would,
  `pypow` raises it for `0 ** negative`, dictionary/list lookups raise
  `KeyError` / `IndexError`, and `range(a, b, 0)` raises `ValueError`.
* The two Python modules each carry their own `electrolyzer_options`
  dictionary (with different values); they are embedded separately in the
  namespaces `H2` (src/h2_cost_model.py) and `Lcoh` (src/lcoh_calculator.py).
-/

/-- Python exception kinds raised by the modelled code paths. -/
inductive PyErr where
  | zeroDivisionError
  | keyError
  | valueErrorUnknownTech
  | valueErrorRangeStepZero
  | indexError
  | typeErrorNotSubscriptable
  deriving DecidableEq

deriving instance DecidableEq for Except

/-- Python true division `a / b`: raises `ZeroDivisionError` when `b == 0`. -/
def pydiv (a b : ℚ) : Except PyErr ℚ :=
  if b = 0 then Except.error PyErr.zeroDivisionError else Except.ok (a / b)

/-- Python power `a ** n` for an integer exponent: raises `ZeroDivisionError`
for `0 ** n` with `n < 0`. -/
def pypow (a : ℚ) (n : ℤ) : Except PyErr ℚ :=
  if a = 0 ∧ n < 0 then Except.error PyErr.zeroDivisionError else Except.ok (a ^ n)

/-- Round-half-to-even of a rational to an integer (Python `round`'s tie rule). -/
def roundHalfEven (s : ℚ) : ℤ :=
  let f := ⌊s⌋
  let r := s - (f : ℚ)
  if r < 1/2 then f else if 1/2 < r then f + 1 else if f % 2 = 0 then f else f + 1

/-- Python `round(q, 2)` modelled on exact rationals. -/
def pyround2 (q : ℚ) : ℚ := ((roundHalfEven (q * 100) : ℚ)) / 100

/-- `np.linspace(a, b, n)`: `n` evenly spaced values from `a` to `b` inclusive.
For `n = 1` the junk division `0 / 0 = 0` makes the formula return `[a]`,
matching numpy. -/
def np_linspace {α : Type} [Field α] (a b : α) (n : ℕ) : List α :=
  (List.range n).map (fun i : ℕ => a + (i : α) * (b - a) / ((n : α) - 1))

/-- `np.min` over a (nonempty in practice) list. -/
def npMin {α : Type} [LinearOrder α] [Zero α] : List α → α
  | [] => 0
  | a :: t => t.foldl min a

/-- `np.max` over a (nonempty in practice) list. -/
def npMax {α : Type} [LinearOrder α] [Zero α] : List α → α
  | [] => 0
  | a :: t => t.foldl max a

/-- Python `range(0, stop, step)` for a nonzero integer `step` (the `step = 0`
`ValueError` is raised by the caller before using this): for `step < 0` the
range is empty, otherwise it is `0, step, 2*step, ...` below `stop`. -/
def pyRange (stop : ℕ) (step : ℤ) : List ℕ :=
  if step ≤ 0 then []
  else (List.range ((stop + step.toNat - 1) / step.toNat)).map (fun i => i * step.toNat)

/-- Module-level constant `CAPACITY_FACTOR = 0.8` (both modules). -/
def CAPACITY_FACTOR : ℚ := 4/5

/-- Module-level constant `WACC = 0.1` (both modules). -/
def WACC : ℚ := 1/10

/-- Technology-name string constants used at the call sites. -/
def pemName : String := "PEM"

def alkalineName : String := "Alkaline"

def soecName : String := "SOEC"

/-- `calculate_crf(WACC, lifetime)`: identical source in both modules.
`if WACC == 0: return 1 / lifetime` else `WACC / (1 - 1 / (1 + WACC) ** lifetime)`. -/
def calculate_crf (wacc : ℚ) (lifetime : ℤ) : Except PyErr ℚ :=
  if wacc = 0 then pydiv 1 (lifetime : ℚ)
  else do
    let p ← pypow (1 + wacc) lifetime
    let inv ← pydiv 1 p
    pydiv wacc (1 - inv)

/-- The replacement-count formula inside `calculate_stack_cost`:
`math.floor(lifetime_years * cf * 8760 / stack_durability)`. -/
def stack_replacements (lifetime : ℤ) (cf dur : ℚ) : ℤ :=
  ⌊(lifetime : ℚ) * cf * 8760 / dur⌋

namespace H2

/-- The record shape of one entry of `electrolyzer_options` in src/h2_cost_model.py. -/
structure H2Spec where
  capex_per_kw : ℚ
  efficiency_kwh_per_kg : ℚ
  lifetime_years : ℤ
  efficiency : ℚ
  stack_durability : ℚ
  stack_cost : ℚ
  deriving DecidableEq

/-- The `"PEM"` entry of `electrolyzer_options` in src/h2_cost_model.py. -/
def pem_spec : H2Spec :=
  { capex_per_kw := 400
    efficiency_kwh_per_kg := 50
    lifetime_years := 20
    efficiency := 7/10
    stack_durability := 60000
    stack_cost := 5000 }

/-- The `"Alkaline"` entry of `electrolyzer_options` in src/h2_cost_model.py. -/
def alkaline_spec : H2Spec :=
  { capex_per_kw := 300
    efficiency_kwh_per_kg := 55
    lifetime_years := 30
    efficiency := 6/10
    stack_durability := 80000
    stack_cost := 4000 }

/-- `electrolyzer_options` dictionary of src/h2_cost_model.py, as `dict.get`. -/
def electrolyzer_options (name : String) : Option H2Spec :=
  if name = pemName then some pem_spec
  else if name = alkalineName then some alkaline_spec
  else none

/-- `calculate_stack_cost(electrolyzer, cf)` of src/h2_cost_model.py:
`floor(lifetime_years * cf * 8760 / stack_durability) * stack_cost`.
The `electrolyzer_options[electrolyzer]` subscript raises `KeyError` on a miss. -/
def calculate_stack_cost (electro : String) (cf : ℚ) : Except PyErr ℚ :=
  match electrolyzer_options electro with
  | none => Except.error PyErr.keyError
  | some spec =>
      if spec.stack_durability = 0 then Except.error PyErr.zeroDivisionError
      else Except.ok ((stack_replacements spec.lifetime_years cf spec.stack_durability : ℚ) * spec.stack_cost)

/-- `total_capex(capex_per_kw, size_kw, bop_cost)` of src/h2_cost_model.py:
`capex_per_kw * size_kw + bop_cost + calculate_stack_cost("PEM")`
(the stack-replacement cost is always the PEM one, at the default capacity factor). -/
def total_capex (capex_per_kw size_kw bop_cost : ℚ) : Except PyErr ℚ := do
  let s ← calculate_stack_cost pemName CAPACITY_FACTOR
  Except.ok (capex_per_kw * size_kw + bop_cost + s)

/-- `calculate_hydrogen_cost` of src/h2_cost_model.py (scalar LCOH):
electricity cost conversion, catalog lookup (raising `ValueError` on a miss),
`capital_cost = crf * total_capex(capex, size, 0)`,
`kg_hydrogen = cf * 8760 * size / efficiency`, and
`round(capital/kg + elec_per_kg + o_and_m, 2)`. -/
def calculate_hydrogen_cost (elec_cost_per_mwh : ℚ) (electro : String)
    (system_size_kw o_and_m_cost_per_kg cf wacc : ℚ) : Except PyErr ℚ := do
  let elec_cost_per_kwh ← pydiv elec_cost_per_mwh 1000
  let spec ← match electrolyzer_options electro with
    | none => Except.error PyErr.valueErrorUnknownTech
    | some s => Except.ok s
  let elec_cost_per_kg := elec_cost_per_kwh * spec.efficiency_kwh_per_kg
  let c ← calculate_crf wacc spec.lifetime_years
  let tc ← total_capex spec.capex_per_kw system_size_kw 0
  let capital_cost := c * tc
  let kg_hydrogen ← pydiv (cf * 8760 * system_size_kw) spec.efficiency_kwh_per_kg
  let capital_cost_per_kg ← pydiv capital_cost kg_hydrogen
  Except.ok (pyround2 (capital_cost_per_kg + elec_cost_per_kg + o_and_m_cost_per_kg))

end H2

namespace Lcoh

/-- Stack cost field of one catalog entry in src/lcoh_calculator.py: either a
flat number or (for SOEC) a per-year `np.linspace` cost curve. -/
inductive StackCost where
  | flat (v : ℚ)
  | perYear (l : List ℚ)
  deriving DecidableEq

/-- The record shape of one entry of `electrolyzer_options` in src/lcoh_calculator.py. -/
structure LcohSpec where
  capex_per_kw : ℚ
  efficiency_kwh_per_kg : ℚ
  lifetime_years : ℕ
  stack_durability : ℚ
  stack_cost : StackCost
  deriving DecidableEq

/-- The `"PEM"` entry of `electrolyzer_options` in src/lcoh_calculator.py. -/
def pem_spec : LcohSpec :=
  { capex_per_kw := 2000
    efficiency_kwh_per_kg := 50
    lifetime_years := 20
    stack_durability := 60000
    stack_cost := StackCost.flat 50 }

/-- The `"Alkaline"` entry of `electrolyzer_options` in src/lcoh_calculator.py. -/
def alkaline_spec : LcohSpec :=
  { capex_per_kw := 300
    efficiency_kwh_per_kg := 55
    lifetime_years := 30
    stack_durability := 80000
    stack_cost := StackCost.flat 4000 }

/-- The `"SOEC"` entry of `electrolyzer_options` in src/lcoh_calculator.py,
with `stack_cost = np.linspace(200, 50, 10)`. -/
def soec_spec : LcohSpec :=
  { capex_per_kw := 2500
    efficiency_kwh_per_kg := 75/2
    lifetime_years := 10
    stack_durability := 25000
    stack_cost := StackCost.perYear (np_linspace 200 50 10) }

/-- `electrolyzer_options` dictionary of src/lcoh_calculator.py, as `dict.get`. -/
def electrolyzer_options (name : String) : Option LcohSpec :=
  if name = pemName then some pem_spec
  else if name = alkalineName then some alkaline_spec
  else if name = soecName then some soec_spec
  else none

/-- Loop body of `calculate_stack_cost_arr`: for each boundary year `yr`,
index `stack_cost[yr]` (a `TypeError` on a flat cost, an `IndexError` past
the end), annualize `stack_cost[yr] * system_size / replacement_cycle_yrs`
and emit it `replacement_cycle_yrs` times. -/
def stackLoop (sc : StackCost) (system_size : ℚ) (c : ℤ) : List ℕ → Except PyErr (List ℚ)
  | [] => Except.ok []
  | yr :: rest => do
      let cost ← match sc with
        | StackCost.flat _ => Except.error PyErr.typeErrorNotSubscriptable
        | StackCost.perYear l =>
            match l[yr]? with
            | some v => Except.ok v
            | none => Except.error PyErr.indexError
      let tail ← stackLoop sc system_size c rest
      Except.ok (List.replicate c.toNat (cost * system_size / (c : ℚ)) ++ tail)

/-- `calculate_stack_cost_arr(electrolyzer_options, system_size, cf)` of
src/lcoh_calculator.py: `replacement_cycle_yrs = floor(stack_durability / (cf * 8760))`,
then `for yr in range(0, lifetime_years, replacement_cycle_yrs)` append
`[stack_cost[yr] * system_size / replacement_cycle_yrs] * replacement_cycle_yrs`.
`range` raises `ValueError` when the step is zero. -/
def calculate_stack_cost_arr (spec : LcohSpec) (system_size cf : ℚ) : Except PyErr (List ℚ) := do
  let q ← pydiv spec.stack_durability (cf * 8760)
  let c : ℤ := ⌊q⌋
  if c = 0 then Except.error PyErr.valueErrorRangeStepZero
  else stackLoop spec.stack_cost system_size c (pyRange spec.lifetime_years c)

/-- `total_capex(capex_per_kw, size_kw)` of src/lcoh_calculator.py:
just `capex_per_kw * size_kw` (the stack-replacement line is commented out). -/
def total_capex (capex_per_kw size_kw : ℚ) : ℚ := capex_per_kw * size_kw

/-- `calculate_annual_hydrogen_output(system_size_kw, electrolyzer, capacity_factor)`
of src/lcoh_calculator.py: catalog lookup (raising `ValueError` on a miss), then
`system_size_kw * capacity_factor * 8760 / efficiency_kwh_per_kg`. -/
def calculate_annual_hydrogen_output (system_size_kw : ℚ) (electro : String)
    (capacity_factor : ℚ) : Except PyErr ℚ := do
  let spec ← match electrolyzer_options electro with
    | none => Except.error PyErr.valueErrorUnknownTech
    | some s => Except.ok s
  pydiv (system_size_kw * capacity_factor * 8760) spec.efficiency_kwh_per_kg

/-- One loop iteration of `get_elec_cost_matrix` (src/lcoh_calculator.py):
log-skewed samples over `np.linspace(0.01, 1, 100)`, normalized by the row's
own min and max and rescaled to span `[30, mean + 30]`, then converted to
dollars per kg by `* efficiency / 1000`. -/
noncomputable def elec_cost_row (eff : ℚ) (mean : ℝ) : List ℝ :=
  let x : List ℝ := np_linspace (1/100) 1 100
  let logValues := x.map (fun v => Real.log (v + 1))
  let minVal := npMin logValues
  let maxVal := npMax logValues
  let distr := logValues.map (fun v => (mean + 30) - (v - minVal) / (maxVal - minVal) * mean)
  distr.map (fun p => p * (eff : ℝ) / 1000)

/-- `get_elec_cost_matrix(efficiency_data)` of src/lcoh_calculator.py:
per-year mean curve `ELECTRICITY_COST_CURVE = np.linspace(60, 50, lifetime_years)`;
row `yr` of the matrix is `elec_cost_row` at that year's mean. -/
noncomputable def get_elec_cost_matrix (spec : LcohSpec) : List (List ℝ) :=
  let curve : List ℝ := np_linspace 60 50 spec.lifetime_years
  (List.range spec.lifetime_years).map (fun yr =>
    elec_cost_row spec.efficiency_kwh_per_kg (curve.getD yr 0))

/-- The capital-cost lines of `calculate_lcoh` (src/lcoh_calculator.py,
lines 166-192), returning the pair `(capital_cost_per_kg, kg_hydrogen)`:
catalog lookup, `capital_cost = crf(wacc, lifetime) * total_capex(capex, size)`
when `include_capital` else `0`, and
`kg_hydrogen = calculate_annual_hydrogen_output(system_size_kw, electrolyzer)`
— note the call passes no capacity factor, so the default `CAPACITY_FACTOR`
is used, not the `cf` parameter. -/
def lcoh_cost_terms (electro : String) (system_size_kw o_and_m_cost_per_kg cf wacc : ℚ)
    (include_capital : Bool) : Except PyErr (ℚ × ℚ) := do
  let spec ← match electrolyzer_options electro with
    | none => Except.error PyErr.valueErrorUnknownTech
    | some s => Except.ok s
  let capital_cost ← if include_capital then do
      let c ← calculate_crf wacc (spec.lifetime_years : ℤ)
      Except.ok (c * total_capex spec.capex_per_kw system_size_kw)
    else Except.ok 0
  let kg_hydrogen ← calculate_annual_hydrogen_output system_size_kw electro CAPACITY_FACTOR
  let capital_cost_per_kg ← pydiv capital_cost kg_hydrogen
  Except.ok (capital_cost_per_kg, kg_hydrogen)

/-- The in-place update `lcoh_matrix[i] += stack_cost_arr[i]; lcoh_matrix[i] += o_and_m`
over `i in range(len(lcoh_matrix))`; indexing `stack_cost_arr[i]` raises
`IndexError` if the stack array is shorter than the matrix. -/
def addStackAndOm (m : List (List ℝ)) (arr : List ℚ) (om : ℚ) : Except PyErr (List (List ℝ)) :=
  if m.length ≤ arr.length then
    Except.ok (List.zipWith (fun row s => row.map (fun x => x + s + (om : ℝ))) m
      (arr.map (fun s : ℚ => (s : ℝ))))
  else Except.error PyErr.indexError

/-- `np.hstack` of two matrices with equal row counts: row-wise concatenation. -/
def hstack (a b : List (List ℝ)) : List (List ℝ) := List.zipWith (· ++ ·) a b

/-- `calculate_lcoh` of src/lcoh_calculator.py: price matrix, (dead)
capital-cost computation, per-year stack cost divided by `kg_hydrogen`,
`+ o_and_m` per row, then a tax-credit copy (`np.where(m - 3 < 0, 0, m - 3)`)
horizontally stacked three times onto the original matrix. -/
noncomputable def calculate_lcoh (electro : String)
    (system_size_kw o_and_m_cost_per_kg cf wacc : ℚ) (include_capital : Bool) :
    Except PyErr (List (List ℝ)) := do
  let spec ← match electrolyzer_options electro with
    | none => Except.error PyErr.valueErrorUnknownTech
    | some s => Except.ok s
  let lcoh_matrix := get_elec_cost_matrix spec
  let terms ← lcoh_cost_terms electro system_size_kw o_and_m_cost_per_kg cf wacc include_capital
  let kg_hydrogen := terms.2
  let stack_cost_arr ← calculate_stack_cost_arr spec system_size_kw cf
  let stack_cost_arr2 ← stack_cost_arr.mapM (fun x => pydiv x kg_hydrogen)
  let m1 ← addStackAndOm lcoh_matrix stack_cost_arr2 o_and_m_cost_per_kg
  let m2 := m1.map (fun row => row.map (fun x => if x - 3 < 0 then (0 : ℝ) else x - 3))
  Except.ok (hstack (hstack (hstack m1 m2) m2) m2)

end Lcoh

/-- Following the spec's words for claim C1 (scalar-mode LCOH):
`round(capital_cost_per_kg + electricity_cost_per_kg + o_and_m_cost_per_kg, 2)`
with `capital_cost_per_kg = capex_per_kw * size_kw * crf / annual_hydrogen_output_kg`,
`electricity_cost_per_kg = price_per_mwh / 1000 * efficiency_kwh_per_kg`, and
`crf` as in spec section 4.1. To be compared against `H2.calculate_hydrogen_cost`. -/
def claimC1_scalar_lcoh (price : ℚ) (spec : H2.H2Spec) (size om cf wacc : ℚ) : ℚ :=
  let crf : ℚ :=
    if wacc = 0 then 1 / (spec.lifetime_years : ℚ)
    else wacc / (1 - (1 + wacc) ^ (-spec.lifetime_years))
  let annual_out : ℚ := size * cf * 8760 / spec.efficiency_kwh_per_kg
  pyround2 (spec.capex_per_kw * size * crf / annual_out +
    price / 1000 * spec.efficiency_kwh_per_kg + om)

section Helpers

theorem exc_ok_bind {ε α β : Type} (a : α) (f : α → Except ε β) :
    (Except.ok a : Except ε α) >>= f = f a := rfl

theorem exc_error_bind {ε α β : Type} (e : ε) (f : α → Except ε β) :
    (Except.error e : Except ε α) >>= f = Except.error e := rfl

theorem exc_bind_eq_ok {ε α β : Type} {x : Except ε α} {f : α → Except ε β} {b : β} :
    x >>= f = Except.ok b ↔ ∃ a, x = Except.ok a ∧ f a = Except.ok b := by
  cases x with
  | ok a => simp [exc_ok_bind]
  | error e => simp [exc_error_bind]

theorem pydiv_ok {a b : ℚ} (h : b ≠ 0) : pydiv a b = Except.ok (a / b) := by
  simp [pydiv, h]

theorem pypow_ok {a : ℚ} (n : ℤ) (h : a ≠ 0) : pypow a n = Except.ok (a ^ n) := by
  simp [pypow, h]

theorem mapM_pydiv (l : List ℚ) {k : ℚ} (h : k ≠ 0) :
    l.mapM (fun x => pydiv x k) = Except.ok (l.map (fun x => x / k)) := by
  induction l with
  | nil => rfl
  | cons a t ih =>
      rw [List.mapM_cons, pydiv_ok h, exc_ok_bind, ih, exc_ok_bind]
      rfl

end Helpers

/-- C8: `calculate_crf` returns exactly `1/N` at zero discount rate (handled as
the explicit special case, not an error) for every lifetime `N > 0`, and for
every nonzero discount rate `r` (where the claimed expression is defined) it
returns `r / (1 - (1 + r)^(-N))`. -/
theorem claim_C8_crf_formula :
    (∀ N : ℤ, 0 < N → calculate_crf 0 N = Except.ok (1 / (N : ℚ))) ∧
    (∀ (r : ℚ) (N : ℤ), r ≠ 0 → 1 + r ≠ 0 → (1 + r) ^ N ≠ 1 →
      calculate_crf r N = Except.ok (r / (1 - (1 + r) ^ (-N)))) := by
  constructor
  · intro N hN
    have : (N : ℚ) ≠ 0 := Int.cast_ne_zero.mpr (by omega)
    simp [calculate_crf, pydiv_ok this]
  · intro r N hr hbase hpow
    have hp : (1 + r) ^ N ≠ 0 := zpow_ne_zero N hbase
    have hd : 1 - ((1 + r) ^ N)⁻¹ ≠ 0 := by
      intro h
      apply hpow
      have h1 : ((1 + r) ^ N)⁻¹ = 1 := by linarith
      rw [inv_eq_one] at h1
      exact h1
    simp [calculate_crf, hr, pypow_ok N hbase, exc_ok_bind, pydiv_ok hp, one_div,
      pydiv_ok hd, zpow_neg]

/-- Witness for C8 at `N = 5` and `(r, N) = (1/10, 20)`. -/
theorem claim_C8_crf_formula_witness :
    calculate_crf 0 5 = Except.ok (1 / 5) ∧
    calculate_crf (1/10) 20 = Except.ok ((1/10) / (1 - (1 + 1/10) ^ (-(20:ℤ)))) := by
  constructor
  · exact claim_C8_crf_formula.1 5 (by norm_num)
  · exact claim_C8_crf_formula.2 (1/10) 20 (by norm_num) (by norm_num) (by norm_num)

/-- C10: the count-mode replacement count
`floor(lifetime_years * cf * 8760 / stack_durability_hours)` (the core of
`H2.calculate_stack_cost`) is monotonically non-decreasing in `lifetime_years`
and non-increasing in `stack_durability_hours`. -/
theorem claim_C10_replacements_monotone :
    (∀ (L1 L2 : ℤ) (cf d : ℚ), 0 < cf → cf ≤ 1 → 0 < L1 → 0 < d → L1 ≤ L2 →
      stack_replacements L1 cf d ≤ stack_replacements L2 cf d) ∧
    (∀ (L : ℤ) (cf d1 d2 : ℚ), 0 < cf → cf ≤ 1 → 0 < L → 0 < d1 → d1 ≤ d2 →
      stack_replacements L cf d2 ≤ stack_replacements L cf d1) := by
  constructor
  · intro L1 L2 cf d hcf _ hL hd hLL
    apply Int.floor_le_floor
    have hL2 : (L1 : ℚ) ≤ (L2 : ℚ) := by exact_mod_cast hLL
    gcongr
  · intro L cf d1 d2 hcf _ hL hd1 hdd
    apply Int.floor_le_floor
    have hLq : (0 : ℚ) < (L : ℚ) := by exact_mod_cast hL
    gcongr

/-- Witness for C10 at `(L, cf, d) = (10 ≤ 20, 4/5, 60000)` and
`(10, 4/5, 60000 ≤ 80000)`. -/
theorem claim_C10_replacements_monotone_witness :
    stack_replacements 10 (4/5) 60000 ≤ stack_replacements 20 (4/5) 60000 ∧
    stack_replacements 10 (4/5) 80000 ≤ stack_replacements 10 (4/5) 60000 := by
  constructor
  · exact claim_C10_replacements_monotone.1 10 20 (4/5) 60000 (by norm_num) (by norm_num)
      (by norm_num) (by norm_num) (by norm_num)
  · exact claim_C10_replacements_monotone.2 10 (4/5) 60000 80000 (by norm_num) (by norm_num)
      (by norm_num) (by norm_num) (by norm_num)

/-- An unknown-technology name used to probe the catalogs. -/
def unknownName : String := "unknown"

/-- Counterexample to C5: for `lifetime_years = -5 ≤ 0` (and zero discount
rate) `calculate_crf` does not fail at all — it silently returns
`1 / lifetime = -1/5` — so no `InvalidParameter` failure occurs. -/
theorem claim_C5_counterexample : calculate_crf 0 (-5) = Except.ok (-(1/5)) := by
  norm_num [calculate_crf, pydiv]

/-- Amended C5: `calculate_crf` has no parameter guard: at `lifetime = 0` it
fails with an unguarded `ZeroDivisionError` (for every discount rate), and at
negative lifetime with zero discount rate it silently returns `1/lifetime`;
`calculate_stack_cost_arr` with `replacement_cycle_years = 0` fails with the
`ValueError` raised by `range(0, n, 0)`, not an explicit `InvalidParameter`. -/
theorem claim_C5_amended :
    (∀ w : ℚ, calculate_crf w 0 = Except.error PyErr.zeroDivisionError) ∧
    (∀ N : ℤ, N < 0 → calculate_crf 0 N = Except.ok (1 / (N : ℚ))) ∧
    (∀ (spec : Lcoh.LcohSpec) (size cf : ℚ), cf * 8760 ≠ 0 →
      ⌊spec.stack_durability / (cf * 8760)⌋ = 0 →
      Lcoh.calculate_stack_cost_arr spec size cf = Except.error PyErr.valueErrorRangeStepZero) := by
  refine ⟨?_, ?_, ?_⟩
  · intro w
    by_cases hw : w = 0
    · simp [calculate_crf, hw, pydiv]
    · simp [calculate_crf, hw, pypow, pydiv, exc_ok_bind]
  · intro N hN
    have : (N : ℚ) ≠ 0 := Int.cast_ne_zero.mpr (by omega)
    simp [calculate_crf, pydiv_ok this]
  · intro spec size cf hcf hzero
    simp only [Lcoh.calculate_stack_cost_arr, pydiv_ok hcf, exc_ok_bind]
    rw [hzero]
    simp

/-- Witness for C5 amended: `crf` at lifetime `0`, `crf` at lifetime `-7`,
and the SOEC entry at capacity factor `4` (whose replacement cycle floors
to zero). -/
theorem claim_C5_amended_witness :
    calculate_crf (1/10) 0 = Except.error PyErr.zeroDivisionError ∧
    calculate_crf 0 (-7) = Except.ok (1 / ((-7 : ℤ) : ℚ)) ∧
    Lcoh.calculate_stack_cost_arr Lcoh.soec_spec 1000 4 =
      Except.error PyErr.valueErrorRangeStepZero := by
  refine ⟨claim_C5_amended.1 (1/10), claim_C5_amended.2.1 (-7) (by norm_num), ?_⟩
  exact claim_C5_amended.2.2 Lcoh.soec_spec 1000 4 (by norm_num)
    (by norm_num [Lcoh.soec_spec, Int.floor_eq_zero_iff, Set.mem_Ico])

/-- Counterexample to C7: the two modules consult different catalogs whose
`"PEM"` entries disagree (capex 400 vs 2000 dollars per kW, stack cost 5000
vs 50), so `get("PEM")` does not return the same parameter set wherever the
catalog is consulted. -/
theorem claim_C7_counterexample :
    H2.electrolyzer_options pemName = some H2.pem_spec ∧
    Lcoh.electrolyzer_options pemName = some Lcoh.pem_spec ∧
    H2.pem_spec.capex_per_kw = 400 ∧
    Lcoh.pem_spec.capex_per_kw = 2000 ∧
    H2.pem_spec.stack_cost = 5000 ∧
    Lcoh.pem_spec.stack_cost = Lcoh.StackCost.flat 50 ∧
    H2.pem_spec.capex_per_kw ≠ Lcoh.pem_spec.capex_per_kw := by
  refine ⟨rfl, rfl, rfl, rfl, rfl, rfl, ?_⟩
  norm_num [H2.pem_spec, Lcoh.pem_spec]

/-- Amended C7: each module's lookup is fixed; a name missing from a module's
catalog makes that module's computation abort with the unknown-technology
`ValueError` and no partial result; the `"Alkaline"` entries agree across the
two catalogs, but the `"PEM"` entries do not (see the counterexample). -/
theorem claim_C7_amended :
    (∀ name, H2.electrolyzer_options name = none →
      ∀ (p s om cf w : ℚ), H2.calculate_hydrogen_cost p name s om cf w =
        Except.error PyErr.valueErrorUnknownTech) ∧
    (∀ name, Lcoh.electrolyzer_options name = none →
      ∀ (s om cf w : ℚ) (b : Bool), Lcoh.calculate_lcoh name s om cf w b =
        Except.error PyErr.valueErrorUnknownTech) ∧
    (H2.alkaline_spec.capex_per_kw = Lcoh.alkaline_spec.capex_per_kw ∧
      H2.alkaline_spec.efficiency_kwh_per_kg = Lcoh.alkaline_spec.efficiency_kwh_per_kg ∧
      H2.alkaline_spec.lifetime_years = (Lcoh.alkaline_spec.lifetime_years : ℤ) ∧
      H2.alkaline_spec.stack_durability = Lcoh.alkaline_spec.stack_durability ∧
      Lcoh.alkaline_spec.stack_cost = Lcoh.StackCost.flat H2.alkaline_spec.stack_cost) := by
  refine ⟨?_, ?_, rfl, rfl, rfl, rfl, rfl⟩
  · intro name hname p s om cf w
    have h1000 : (1000 : ℚ) ≠ 0 := by norm_num
    simp [H2.calculate_hydrogen_cost, pydiv_ok h1000, exc_ok_bind, hname, exc_error_bind]
  · intro name hname s om cf w b
    simp [Lcoh.calculate_lcoh, hname, exc_error_bind]

/-- Witness for C7 amended: the name `"unknown"` aborts both computations. -/
theorem claim_C7_amended_witness :
    H2.calculate_hydrogen_cost 50 unknownName 1000 1 (4/5) (1/10) =
      Except.error PyErr.valueErrorUnknownTech ∧
    Lcoh.calculate_lcoh unknownName 1000 1 (4/5) (1/10) true =
      Except.error PyErr.valueErrorUnknownTech := by
  constructor
  · exact claim_C7_amended.1 unknownName
      (by simp [H2.electrolyzer_options, unknownName, pemName, alkalineName]) 50 1000 1 (4/5) (1/10)
  · exact claim_C7_amended.2.1 unknownName
      (by simp [Lcoh.electrolyzer_options, unknownName, pemName, alkalineName, soecName])
      1000 1 (4/5) (1/10) true

/-- C9: for every known technology with nonzero efficiency,
`calculate_annual_hydrogen_output` returns exactly
`size_kw * capacity_factor * 8760 / efficiency_kwh_per_kg`; it is linear in
`size_kw` and in `capacity_factor`, and output times efficiency recovers the
annual energy input (inverse linearity in the efficiency). -/
theorem claim_C9_annual_output (name : String) (spec : Lcoh.LcohSpec)
    (hname : Lcoh.electrolyzer_options name = some spec)
    (heff : spec.efficiency_kwh_per_kg ≠ 0) (size cf : ℚ) :
    Lcoh.calculate_annual_hydrogen_output size name cf =
      Except.ok (size * cf * 8760 / spec.efficiency_kwh_per_kg) ∧
    (∀ a : ℚ, Lcoh.calculate_annual_hydrogen_output (a * size) name cf =
      Except.ok (a * (size * cf * 8760 / spec.efficiency_kwh_per_kg))) ∧
    (∀ a : ℚ, Lcoh.calculate_annual_hydrogen_output size name (a * cf) =
      Except.ok (a * (size * cf * 8760 / spec.efficiency_kwh_per_kg))) ∧
    size * cf * 8760 / spec.efficiency_kwh_per_kg * spec.efficiency_kwh_per_kg =
      size * cf * 8760 := by
  refine ⟨?_, ?_, ?_, ?_⟩
  · simp [Lcoh.calculate_annual_hydrogen_output, hname, exc_ok_bind, pydiv_ok heff]
  · intro a
    simp only [Lcoh.calculate_annual_hydrogen_output, hname, exc_ok_bind, pydiv_ok heff]
    rw [mul_div_assoc]
    ring_nf
  · intro a
    simp only [Lcoh.calculate_annual_hydrogen_output, hname, exc_ok_bind, pydiv_ok heff]
    rw [mul_div_assoc]
    ring_nf
  · exact div_mul_cancel₀ _ heff

/-- Witness for C9 at PEM, size 1000 kW, capacity factor 4/5. -/
theorem claim_C9_annual_output_witness :
    Lcoh.calculate_annual_hydrogen_output 1000 pemName (4/5) =
      Except.ok (1000 * (4/5) * 8760 / Lcoh.pem_spec.efficiency_kwh_per_kg) :=
  (claim_C9_annual_output pemName Lcoh.pem_spec rfl
    (by norm_num [Lcoh.pem_spec]) 1000 (4/5)).1

/-- Counterexample to C1: at PEM, 50 dollars per MWh, 100 kW, O&M 1, cf 0.8,
wacc 0.1, the code yields 3.92 dollars per kg while the claimed formula (which
omits the PEM stack-replacement cost baked into `total_capex`) yields 3.84. -/
theorem claim_C1_counterexample :
    H2.calculate_hydrogen_cost 50 pemName 100 1 (4/5) (1/10) = Except.ok (98/25) ∧
    claimC1_scalar_lcoh 50 H2.pem_spec 100 1 (4/5) (1/10) = 96/25 ∧
    H2.calculate_hydrogen_cost 50 pemName 100 1 (4/5) (1/10) ≠
      Except.ok (claimC1_scalar_lcoh 50 H2.pem_spec 100 1 (4/5) (1/10)) := by
  have h1 : H2.calculate_hydrogen_cost 50 pemName 100 1 (4/5) (1/10) = Except.ok (98/25) := by
    norm_num [H2.calculate_hydrogen_cost, H2.electrolyzer_options, H2.pem_spec, H2.total_capex,
      H2.calculate_stack_cost, pemName, alkalineName, CAPACITY_FACTOR, stack_replacements,
      calculate_crf, pypow, pydiv, pyround2, roundHalfEven, exc_ok_bind, exc_error_bind]
    norm_num [Int.fract]
  have h2 : claimC1_scalar_lcoh 50 H2.pem_spec 100 1 (4/5) (1/10) = 96/25 := by
    norm_num [claimC1_scalar_lcoh, H2.pem_spec, pyround2, roundHalfEven]
  refine ⟨h1, h2, ?_⟩
  rw [h1, h2]
  intro h
  rw [Except.ok.injEq] at h
  norm_num at h

/-- Amended C1: scalar-mode LCOH is
`round(c * (capex_per_kw * size + 0 + stk) / (cf * 8760 * size / eff)
 + price/1000 * eff + o_and_m, 2)` where `c` is the CRF at the technology's
lifetime and `stk` is the flat PEM stack-replacement cost
(`calculate_stack_cost("PEM")` at the default capacity factor) that
`total_capex` always adds — an extra cost component the claim omits. -/
theorem claim_C1_amended (price : ℚ) (electro : String) (spec : H2.H2Spec)
    (size om cf wacc c stk : ℚ)
    (hspec : H2.electrolyzer_options electro = some spec)
    (hcrf : calculate_crf wacc spec.lifetime_years = Except.ok c)
    (hstk : H2.calculate_stack_cost pemName CAPACITY_FACTOR = Except.ok stk)
    (heff : spec.efficiency_kwh_per_kg ≠ 0) (hcf : cf ≠ 0) (hsize : size ≠ 0) :
    H2.calculate_hydrogen_cost price electro size om cf wacc =
      Except.ok (pyround2 (c * (spec.capex_per_kw * size + 0 + stk) /
        (cf * 8760 * size / spec.efficiency_kwh_per_kg) +
        price / 1000 * spec.efficiency_kwh_per_kg + om)) := by
  have h1000 : (1000 : ℚ) ≠ 0 := by norm_num
  have hkg : cf * 8760 * size / spec.efficiency_kwh_per_kg ≠ 0 := by
    apply div_ne_zero _ heff
    exact mul_ne_zero (mul_ne_zero hcf (by norm_num)) hsize
  simp [H2.calculate_hydrogen_cost, H2.total_capex, pydiv_ok h1000, hspec, hcrf, hstk,
    exc_ok_bind, pydiv_ok heff, pydiv_ok hkg,
    div_ne_zero_iff, mul_ne_zero_iff, hcf, hsize, heff]

/-- Witness for C1 amended at PEM, 50 dollars per MWh, 100 kW, O&M 1,
cf 0.8, wacc 0.1 (CRF value written out exactly). -/
theorem claim_C1_amended_witness :
    H2.calculate_hydrogen_cost 50 pemName 100 1 (4/5) (1/10) =
      Except.ok (pyround2 ((672749994932560009201/5727499949325600092010) *
        (H2.pem_spec.capex_per_kw * 100 + 0 + 10000) /
        ((4/5) * 8760 * 100 / H2.pem_spec.efficiency_kwh_per_kg) +
        50 / 1000 * H2.pem_spec.efficiency_kwh_per_kg + 1)) := by
  apply claim_C1_amended 50 pemName H2.pem_spec 100 1 (4/5) (1/10)
    (672749994932560009201/5727499949325600092010) 10000 rfl
  · norm_num [calculate_crf, pypow, pydiv, exc_ok_bind, H2.pem_spec]
  · norm_num [H2.calculate_stack_cost, H2.electrolyzer_options, H2.pem_spec, pemName,
      CAPACITY_FACTOR, stack_replacements]
  · norm_num [H2.pem_spec]
  · norm_num
  · norm_num

section StackArrLemmas

theorem stackLoop_perYear_ok (l : List ℚ) (size : ℚ) (c : ℤ) (ys : List ℕ)
    (h : ∀ y ∈ ys, y < l.length) :
    Lcoh.stackLoop (Lcoh.StackCost.perYear l) size c ys =
      Except.ok (ys.flatMap fun y => List.replicate c.toNat (l.getD y 0 * size / (c : ℚ))) := by
  induction ys with
  | nil => rfl
  | cons y rest ih =>
      have hy : y < l.length := h y (List.mem_cons_self y rest)
      have hrest : ∀ z ∈ rest, z < l.length := fun z hz => h z (List.mem_cons_of_mem y hz)
      have h1 : l[y]? = some (l.getD y 0) := by
        rw [List.getD_eq_getElem?_getD, List.getElem?_eq_getElem hy]
        rfl
      simp only [Lcoh.stackLoop, h1, exc_ok_bind, ih hrest, List.flatMap_cons]

theorem length_flatMap_replicate {α : Type} (g : ℕ → α) (cn : ℕ) (ys : List ℕ) :
    (ys.flatMap fun y => List.replicate cn (g y)).length = ys.length * cn := by
  induction ys with
  | nil => simp
  | cons y rest ih => simp [List.flatMap_cons, ih, Nat.succ_mul, Nat.add_comm]

theorem ceil_div_mul_ge (L cn : ℕ) (h : 0 < cn) : L ≤ (L + cn - 1) / cn * cn := by
  have h1 := Nat.div_add_mod (L + cn - 1) cn
  have h2 := Nat.mod_lt (L + cn - 1) h
  have h3 : cn * ((L + cn - 1) / cn) = (L + cn - 1) / cn * cn := Nat.mul_comm _ _
  omega

end StackArrLemmas

/-- Counterexample to C2: for the SOEC entry (per-year stack costs,
lifetime 10) at capacity factor 0.8 the produced sequence has length 12, not
`lifetime_years = 10`: the final partial replacement cycle is padded to a full
3-year cycle, not truncated to the lifetime. -/
theorem claim_C2_counterexample :
    Except.map List.length (Lcoh.calculate_stack_cost_arr Lcoh.soec_spec 1000 (4/5)) =
      Except.ok 12 ∧
    Lcoh.soec_spec.lifetime_years = 10 ∧ (12 : ℕ) ≠ 10 := by
  refine ⟨?_, rfl, by norm_num⟩
  have hlen10 : (np_linspace (200:ℚ) 50 10).length = 10 := by
    simp [np_linspace]
  have harr := stackLoop_perYear_ok (np_linspace 200 50 10) 1000 3 [0, 3, 6, 9]
    (by intro y hy; rw [hlen10]; fin_cases hy <;> norm_num)
  have hfloor : ⌊(25000 : ℚ) / ((4/5) * 8760)⌋ = (3 : ℤ) := by norm_num
  have hstep : pyRange 10 3 = [0, 3, 6, 9] := by decide
  simp only [Lcoh.calculate_stack_cost_arr, Lcoh.soec_spec, pydiv_ok
    (by norm_num : ((4:ℚ)/5) * 8760 ≠ 0), exc_ok_bind]
  rw [hfloor, if_neg (by norm_num : ¬ (3:ℤ) = 0), hstep, harr, Except.map,
    length_flatMap_replicate (fun y => (np_linspace (200:ℚ) 50 10).getD y 0 * 1000 / ((3:ℤ) : ℚ))]
  rfl

/-- Amended C2: for a per-year stack-cost technology with
`replacement_cycle_years = floor(stack_durability / (cf * 8760)) > 0` and a
cost list covering the lifetime, the schedule is `ceil(lifetime / cycle)`
cycles, each emitted as `cycle` copies of that cycle's boundary-year stack
cost times system size divided by the cycle length; its length is
`cycle * ceil(lifetime / cycle)`, which is at least `lifetime_years` (the
final partial cycle is padded to a full cycle, never truncated). -/
theorem claim_C2_amended (spec : Lcoh.LcohSpec) (l : List ℚ) (size cf : ℚ) (c : ℤ) (cn m : ℕ)
    (hl : spec.stack_cost = Lcoh.StackCost.perYear l)
    (hcf : cf * 8760 ≠ 0)
    (hc : c = ⌊spec.stack_durability / (cf * 8760)⌋)
    (hcpos : 0 < c)
    (hcn : cn = c.toNat)
    (hm : m = (spec.lifetime_years + cn - 1) / cn)
    (hlen : spec.lifetime_years ≤ l.length) :
    Lcoh.calculate_stack_cost_arr spec size cf =
      Except.ok ((List.range m).flatMap fun i =>
        List.replicate cn (l.getD (i * cn) 0 * size / (c : ℚ))) ∧
    ((List.range m).flatMap fun i =>
      List.replicate cn (l.getD (i * cn) 0 * size / (c : ℚ))).length = m * cn ∧
    spec.lifetime_years ≤ m * cn := by
  have hcn1 : 0 < cn := by omega
  have hidx : ∀ y ∈ pyRange spec.lifetime_years c, y < l.length := by
    intro y hy
    rw [pyRange, if_neg (by omega : ¬ c ≤ 0)] at hy
    rcases List.mem_map.mp hy with ⟨i, hi, rfl⟩
    rw [List.mem_range] at hi
    have hmc : (spec.lifetime_years + c.toNat - 1) / c.toNat * c.toNat ≤
        spec.lifetime_years + c.toNat - 1 := Nat.div_mul_le_self _ _
    have hstep : (i + 1) * c.toNat ≤ (spec.lifetime_years + c.toNat - 1) / c.toNat * c.toNat :=
      Nat.mul_le_mul_right _ hi
    have hsm : (i + 1) * c.toNat = i * c.toNat + c.toNat := Nat.succ_mul i c.toNat
    omega
  refine ⟨?_, ?_, ?_⟩
  · simp only [Lcoh.calculate_stack_cost_arr, pydiv_ok hcf, exc_ok_bind]
    rw [← hc, if_neg (by omega : ¬ c = 0), hl, stackLoop_perYear_ok l size c _ hidx,
      pyRange, if_neg (by omega : ¬ c ≤ 0)]
    rw [List.flatMap_map, hm, hcn]
  · rw [length_flatMap_replicate (fun i => l.getD (i * cn) 0 * size / (c : ℚ)) cn (List.range m),
      List.length_range]
  · rw [hm]
    exact ceil_div_mul_ge spec.lifetime_years cn hcn1

/-- Witness for C2 amended: SOEC at 1000 kW and capacity factor 0.8
(`cycle = 3`, `ceil(10/3) = 4` cycles, 12 entries covering the 10-year life). -/
theorem claim_C2_amended_witness :
    Lcoh.calculate_stack_cost_arr Lcoh.soec_spec 1000 (4/5) =
      Except.ok ((List.range 4).flatMap fun i =>
        List.replicate 3 ((np_linspace 200 50 10).getD (i * 3) 0 * 1000 / ((3 : ℤ) : ℚ))) ∧
    ((List.range 4).flatMap fun i =>
      List.replicate 3 ((np_linspace 200 50 10).getD (i * 3) 0 * 1000 / ((3 : ℤ) : ℚ))).length
      = 4 * 3 ∧
    Lcoh.soec_spec.lifetime_years ≤ 4 * 3 := by
  apply claim_C2_amended Lcoh.soec_spec (np_linspace 200 50 10) 1000 (4/5) 3 3 4 rfl
  · norm_num
  · norm_num [Lcoh.soec_spec]
  · norm_num
  · rfl
  · rfl
  · simp [Lcoh.soec_spec, np_linspace]

section PriceBoundLemmas

theorem foldl_min_le {α : Type} [LinearOrder α] (t : List α) (a : α) :
    t.foldl min a ≤ a ∧ ∀ v ∈ t, t.foldl min a ≤ v := by
  induction t generalizing a with
  | nil => simp
  | cons b rest ih =>
      refine ⟨le_trans (ih (min a b)).1 (min_le_left a b), ?_⟩
      intro v hv
      rcases List.mem_cons.mp hv with rfl | hv
      · exact le_trans (ih (min a v)).1 (min_le_right a v)
      · exact (ih (min a b)).2 v hv

theorem le_foldl_max {α : Type} [LinearOrder α] (t : List α) (a : α) :
    a ≤ t.foldl max a ∧ ∀ v ∈ t, v ≤ t.foldl max a := by
  induction t generalizing a with
  | nil => simp
  | cons b rest ih =>
      refine ⟨le_trans (le_max_left a b) (ih (max a b)).1, ?_⟩
      intro v hv
      rcases List.mem_cons.mp hv with rfl | hv
      · exact le_trans (le_max_right a v) (ih (max a v)).1
      · exact (ih (max a b)).2 v hv

theorem npMin_le_mem {α : Type} [LinearOrder α] [Zero α] {l : List α} {v : α} (h : v ∈ l) :
    npMin l ≤ v := by
  cases l with
  | nil => cases h
  | cons a t =>
      rcases List.mem_cons.mp h with rfl | hv
      · exact (foldl_min_le t v).1
      · exact (foldl_min_le t a).2 v hv

theorem le_npMax_mem {α : Type} [LinearOrder α] [Zero α] {l : List α} {v : α} (h : v ∈ l) :
    v ≤ npMax l := by
  cases l with
  | nil => cases h
  | cons a t =>
      rcases List.mem_cons.mp h with rfl | hv
      · exact (le_foldl_max t v).1
      · exact (le_foldl_max t a).2 v hv

theorem np_linspace_length {α : Type} [Field α] (a b : α) (n : ℕ) :
    (np_linspace a b n).length = n := by
  rw [np_linspace, List.length_map, List.length_range]

theorem np_linspace_getD {α : Type} [Field α] (a b : α) {n y : ℕ} (hy : y < n) :
    (np_linspace a b n).getD y 0 = a + (y : α) * (b - a) / ((n : α) - 1) := by
  have hl : y < (np_linspace a b n).length := by rw [np_linspace_length]; exact hy
  rw [np_linspace, List.getD_eq_getElem?_getD, List.getElem?_map, List.getElem?_range hy]
  rfl

theorem curve_mean_bounds {n y : ℕ} (hy : y < n) :
    50 ≤ (np_linspace (60:ℝ) 50 n).getD y 0 ∧ (np_linspace (60:ℝ) 50 n).getD y 0 ≤ 60 := by
  rw [np_linspace_getD 60 50 hy]
  by_cases hn : n = 1
  · subst hn
    have hy0 : y = 0 := by omega
    subst hy0
    norm_num
  · have hn2 : 2 ≤ n := by omega
    have hd : (0:ℝ) < (n:ℝ) - 1 := by
      have : (2:ℝ) ≤ (n:ℝ) := by exact_mod_cast hn2
      linarith
    have hy1 : (y:ℝ) ≤ (n:ℝ) - 1 := by
      have : (y:ℝ) + 1 ≤ (n:ℝ) := by exact_mod_cast hy
      linarith
    have hterm : (y:ℝ) * ((50:ℝ) - 60) / ((n:ℝ) - 1) = -(10 * (y:ℝ) / ((n:ℝ) - 1)) := by
      ring
    rw [hterm]
    have h0 : 0 ≤ 10 * (y:ℝ) / ((n:ℝ) - 1) := by positivity
    have h10 : 10 * (y:ℝ) / ((n:ℝ) - 1) ≤ 10 := by
      rw [div_le_iff hd]
      linarith
    constructor <;> linarith

theorem elec_cost_row_length (eff : ℚ) (mean : ℝ) :
    (Lcoh.elec_cost_row eff mean).length = 100 := by
  unfold Lcoh.elec_cost_row
  simp [np_linspace_length]

theorem elec_cost_row_bounds (eff : ℚ) (mean : ℝ) {s : ℕ} (hs : s < 100)
    (hmean : 0 ≤ mean) (heff : 0 ≤ eff) :
    30 * (eff : ℝ) / 1000 ≤ (Lcoh.elec_cost_row eff mean).getD s 0 ∧
    (Lcoh.elec_cost_row eff mean).getD s 0 ≤ (mean + 30) * (eff : ℝ) / 1000 := by
  have heffR : (0 : ℝ) ≤ (eff : ℝ) := by exact_mod_cast heff
  set logValues : List ℝ :=
    ((np_linspace (1/100 : ℝ) 1 100).map (fun v => Real.log (v + 1))) with hlog
  have hlen : logValues.length = 100 := by
    rw [hlog, List.length_map, np_linspace_length]
  have hsl : s < logValues.length := by rw [hlen]; exact hs
  have hentry : (Lcoh.elec_cost_row eff mean).getD s 0 =
      ((mean + 30) - (logValues.get ⟨s, hsl⟩ - npMin logValues) /
        (npMax logValues - npMin logValues) * mean) * (eff : ℝ) / 1000 := by
    unfold Lcoh.elec_cost_row
    rw [List.getD_eq_getElem?_getD, List.getElem?_map, List.getElem?_map,
      List.getElem?_eq_getElem hsl]
    rfl
  set v : ℝ := logValues.get ⟨s, hsl⟩ with hv
  have hvmem : v ∈ logValues := List.get_mem logValues s hsl
  have hmv : npMin logValues ≤ v := npMin_le_mem hvmem
  have hvM : v ≤ npMax logValues := le_npMax_mem hvmem
  set t : ℝ := (v - npMin logValues) / (npMax logValues - npMin logValues) with ht
  have ht01 : 0 ≤ t ∧ t ≤ 1 := by
    rcases eq_or_lt_of_le (le_trans hmv hvM) with heq | hlt
    · have hveq : v = npMin logValues := le_antisymm (heq ▸ hvM) hmv
      have : t = 0 := by
        rw [ht, hveq, sub_self, zero_div]
      rw [this]
      norm_num
    · have hpos : 0 < npMax logValues - npMin logValues := by linarith
      constructor
      · apply div_nonneg (by linarith) (le_of_lt hpos)
      · rw [div_le_one hpos]
        linarith
  have hcore : 30 ≤ (mean + 30) - t * mean ∧ (mean + 30) - t * mean ≤ mean + 30 := by
    have h1 : t * mean ≤ mean := by
      calc t * mean ≤ 1 * mean := mul_le_mul_of_nonneg_right ht01.2 hmean
        _ = mean := one_mul mean
    have h2 : 0 ≤ t * mean := mul_nonneg ht01.1 hmean
    constructor <;> linarith
  rw [hentry]
  constructor
  · gcongr
    exact hcore.1
  · gcongr
    exact hcore.2

end PriceBoundLemmas

/-- C6: every entry of the electricity-price matrix lies within
`[30 * eff / 1000, (mean_y + 30) * eff / 1000]`, where `mean_y` is the year's
mean from the linearly interpolated curve `np.linspace(60, 50, lifetime)`. -/
theorem claim_C6_price_bounds (spec : Lcoh.LcohSpec) (y s : ℕ)
    (hy : y < spec.lifetime_years) (hs : s < 100)
    (heff : 0 ≤ spec.efficiency_kwh_per_kg) :
    30 * (spec.efficiency_kwh_per_kg : ℝ) / 1000 ≤
      ((Lcoh.get_elec_cost_matrix spec).getD y []).getD s 0 ∧
    ((Lcoh.get_elec_cost_matrix spec).getD y []).getD s 0 ≤
      ((np_linspace (60:ℝ) 50 spec.lifetime_years).getD y 0 + 30) *
        (spec.efficiency_kwh_per_kg : ℝ) / 1000 := by
  have hrow : (Lcoh.get_elec_cost_matrix spec).getD y [] =
      Lcoh.elec_cost_row spec.efficiency_kwh_per_kg
        ((np_linspace (60:ℝ) 50 spec.lifetime_years).getD y 0) := by
    rw [Lcoh.get_elec_cost_matrix]
    rw [List.getD_eq_getElem?_getD, List.getElem?_map, List.getElem?_range hy]
    rfl
  have hmean := curve_mean_bounds (n := spec.lifetime_years) hy
  have hmean0 : (0:ℝ) ≤ (np_linspace (60:ℝ) 50 spec.lifetime_years).getD y 0 := by
    linarith [hmean.1]
  rw [hrow]
  exact elec_cost_row_bounds spec.efficiency_kwh_per_kg _ hs hmean0 heff

/-- Witness for C6 at the SOEC entry, year 0, sample 0. -/
theorem claim_C6_price_bounds_witness :
    30 * (Lcoh.soec_spec.efficiency_kwh_per_kg : ℝ) / 1000 ≤
      ((Lcoh.get_elec_cost_matrix Lcoh.soec_spec).getD 0 []).getD 0 0 ∧
    ((Lcoh.get_elec_cost_matrix Lcoh.soec_spec).getD 0 []).getD 0 0 ≤
      ((np_linspace (60:ℝ) 50 Lcoh.soec_spec.lifetime_years).getD 0 0 + 30) *
        (Lcoh.soec_spec.efficiency_kwh_per_kg : ℝ) / 1000 :=
  claim_C6_price_bounds Lcoh.soec_spec 0 0 (by norm_num [Lcoh.soec_spec]) (by norm_num)
    (by norm_num [Lcoh.soec_spec])

/-- Helper: length of the SOEC per-year stack schedule at a given capacity
factor, evaluated through `stackLoop_perYear_ok`. -/
theorem soec_arr_length_eval (cf : ℚ) (c : ℤ) (ys : List ℕ) (n : ℕ)
    (hcf : cf * 8760 ≠ 0) (hfloor : ⌊(25000 : ℚ) / (cf * 8760)⌋ = c) (hc : ¬ c = 0)
    (hys : pyRange 10 c = ys) (hidx : ∀ y ∈ ys, y < 10) (hn : ys.length * c.toNat = n) :
    Except.map List.length (Lcoh.calculate_stack_cost_arr Lcoh.soec_spec 1000 cf) =
      Except.ok n := by
  have hlen10 : (np_linspace (200:ℚ) 50 10).length = 10 := np_linspace_length 200 50 10
  have harr := stackLoop_perYear_ok (np_linspace 200 50 10) 1000 c ys
    (by intro y hy; rw [hlen10]; exact hidx y hy)
  simp only [Lcoh.calculate_stack_cost_arr, Lcoh.soec_spec, pydiv_ok hcf, exc_ok_bind]
  rw [hfloor, if_neg hc, hys, harr, Except.map,
    length_flatMap_replicate (fun y => (np_linspace (200:ℚ) 50 10).getD y 0 * 1000 / (c : ℚ)),
    hn]

/-- C4 (implicit): the divisor `kg_hydrogen` used for the capital-cost and
stack-cost components of `calculate_lcoh` is computed by calling
`calculate_annual_hydrogen_output` without the `cf` argument, i.e. at the
module default `CAPACITY_FACTOR = 0.8`: the `(capital_cost_per_kg, kg_hydrogen)`
pair (`lcoh_cost_terms`, the embedded lines 166-192) is entirely independent of
`cf`, while the per-year stack schedule itself does depend on `cf`. -/
theorem claim_C4_default_cf_divisor :
    (∀ (electro : String) (size om cf cfp w : ℚ) (b : Bool),
      Lcoh.lcoh_cost_terms electro size om cf w b =
        Lcoh.lcoh_cost_terms electro size om cfp w b) ∧
    (∀ (electro : String) (size om cf w : ℚ) (b : Bool) (pr : ℚ × ℚ),
      Lcoh.lcoh_cost_terms electro size om cf w b = Except.ok pr →
      Lcoh.calculate_annual_hydrogen_output size electro CAPACITY_FACTOR = Except.ok pr.2) ∧
    Lcoh.calculate_stack_cost_arr Lcoh.soec_spec 1000 (4/5) ≠
      Lcoh.calculate_stack_cost_arr Lcoh.soec_spec 1000 (2/5) := by
  refine ⟨fun _ _ _ _ _ _ _ => rfl, ?_, ?_⟩
  · intro electro size om cf w b pr h
    cases hspec : Lcoh.electrolyzer_options electro with
    | none =>
        rw [Lcoh.lcoh_cost_terms, hspec] at h
        simp [exc_error_bind] at h
    | some spec =>
        rw [Lcoh.lcoh_cost_terms, hspec] at h
        simp only [exc_ok_bind] at h
        cases b with
        | true =>
            rw [if_pos rfl] at h
            rcases exc_bind_eq_ok.mp h with ⟨c, hc, h2⟩
            rcases exc_bind_eq_ok.mp h2 with ⟨kg, hkg, h3⟩
            rcases exc_bind_eq_ok.mp h3 with ⟨ckg, hckg, h4⟩
            simp only [Except.ok.injEq] at h4
            rw [← h4]
            exact hkg
        | false =>
            rw [if_neg (by decide)] at h
            rcases exc_bind_eq_ok.mp h with ⟨kg, hkg, h3⟩
            rcases exc_bind_eq_ok.mp h3 with ⟨ckg, hckg, h4⟩
            simp only [Except.ok.injEq] at h4
            rw [← h4]
            exact hkg
  · intro h
    have l1 : Except.map List.length (Lcoh.calculate_stack_cost_arr Lcoh.soec_spec 1000 (4/5)) =
        Except.ok 12 :=
      soec_arr_length_eval (4/5) 3 [0, 3, 6, 9] 12 (by norm_num) (by norm_num) (by norm_num)
        (by decide) (by decide) (by decide)
    have l2 : Except.map List.length (Lcoh.calculate_stack_cost_arr Lcoh.soec_spec 1000 (2/5)) =
        Except.ok 14 :=
      soec_arr_length_eval (2/5) 7 [0, 7] 14 (by norm_num) (by norm_num) (by norm_num)
        (by decide) (by decide) (by decide)
    rw [h, l2] at l1
    simp at l1

/-- Witness for C4: at PEM, size 1000, the cost-terms pair is identical for
capacity factors 0.8 and 0.4, and the divisor is the annual output at the
default capacity factor. -/
theorem claim_C4_default_cf_divisor_witness :
    Lcoh.lcoh_cost_terms pemName 1000 1 (4/5) (1/10) true =
      Lcoh.lcoh_cost_terms pemName 1000 1 (2/5) (1/10) true ∧
    Lcoh.calculate_annual_hydrogen_output 1000 pemName CAPACITY_FACTOR =
      Except.ok 140160 := by
  constructor
  · exact claim_C4_default_cf_divisor.1 pemName 1000 1 (4/5) (2/5) (1/10) true
  · have h : Lcoh.lcoh_cost_terms pemName 1000 1 (4/5) (1/10) true =
        Except.ok (420468746832850005750625/250864497780461284030038, 140160) := by
      norm_num [Lcoh.lcoh_cost_terms, Lcoh.electrolyzer_options, Lcoh.pem_spec, pemName,
        alkalineName, soecName, Lcoh.calculate_annual_hydrogen_output, Lcoh.total_capex,
        CAPACITY_FACTOR, calculate_crf, pypow, pydiv, exc_ok_bind]
    exact claim_C4_default_cf_divisor.2.1 pemName 1000 1 (4/5) (1/10) true
      (420468746832850005750625/250864497780461284030038, 140160) h

section MatrixLemmas

theorem real_where_max (x : ℝ) : (if x - 3 < 0 then (0:ℝ) else x - 3) = max (x - 3) 0 := by
  rcases lt_or_le (x - 3) 0 with h | h
  · rw [if_pos h, max_eq_right (le_of_lt h)]
  · rw [if_neg (not_lt.mpr h), max_eq_left h]

theorem hstack_chain (a b : List (List ℝ)) :
    Lcoh.hstack (Lcoh.hstack (Lcoh.hstack a b) b) b =
      List.zipWith (fun p q => p ++ (q ++ (q ++ q))) a b := by
  induction a generalizing b with
  | nil => rfl
  | cons x xs ih =>
      cases b with
      | nil => rfl
      | cons y ys =>
          simp only [Lcoh.hstack, List.zipWith_cons_cons, List.append_assoc] at ih ⊢
          rw [← ih]

theorem mem_zipWith_imp {α β γ : Type} {f : α → β → γ} {l₁ : List α} {l₂ : List β} {c : γ}
    (h : c ∈ List.zipWith f l₁ l₂) : ∃ a ∈ l₁, ∃ b ∈ l₂, c = f a b := by
  induction l₁ generalizing l₂ with
  | nil => simp at h
  | cons x xs ih =>
      cases l₂ with
      | nil => simp at h
      | cons y ys =>
          rw [List.zipWith_cons_cons] at h
          rcases List.mem_cons.mp h with rfl | h2
          · exact ⟨x, List.mem_cons_self x xs, y, List.mem_cons_self y ys, rfl⟩
          · rcases ih h2 with ⟨a, ha, b, hb, rfl⟩
            exact ⟨a, List.mem_cons_of_mem x ha, b, List.mem_cons_of_mem y hb, rfl⟩

end MatrixLemmas

/-- Following the spec's words for claim C3: the pre-credit LCOH matrix of the
SOEC scenario — the price-distribution rows, each entry shifted by that year's
stack cost per kg (the scheduler's entry divided by the annual hydrogen output
at the default capacity factor) and by the uniform O&M cost. -/
noncomputable def claimC3_pre (size om : ℚ) : List (List ℝ) :=
  let arr := (Lcoh.calculate_stack_cost_arr Lcoh.soec_spec size CAPACITY_FACTOR).toOption.getD []
  let kg : ℚ := size * CAPACITY_FACTOR * 8760 / Lcoh.soec_spec.efficiency_kwh_per_kg
  let arr_per_kg := arr.map (fun s => s / kg)
  List.zipWith (fun row s => row.map (fun x => x + (s : ℝ) + (om : ℝ)))
    (Lcoh.get_elec_cost_matrix Lcoh.soec_spec) arr_per_kg

/-- Following the spec's words for claim C3: the pre-credit matrix concatenated
column-wise with three replicas of the credit-adjusted matrix, whose entries
are `max(pre - 3, 0)`. -/
noncomputable def claimC3_matrix (size om : ℚ) : List (List ℝ) :=
  let pre := claimC3_pre size om
  let adj := pre.map (fun row => row.map (fun x => max (x - 3) 0))
  List.zipWith (fun p a => p ++ (a ++ (a ++ a))) pre adj

/-- C3: for the per-year-stack-cost technology (SOEC), `calculate_lcoh` returns
exactly the pre-credit matrix (price rows + per-year stack cost per kg +
uniform O&M) concatenated column-wise with three replicas of the
credit-adjusted matrix `max(pre - 3, 0)`; the result has `lifetime_years = 10`
rows of `4 * 100 = 400` columns each. -/
theorem claim_C3_matrix_concat (size om : ℚ) (hsize : size ≠ 0) :
    Lcoh.calculate_lcoh soecName size om CAPACITY_FACTOR WACC true =
      Except.ok (claimC3_matrix size om) ∧
    (claimC3_matrix size om).length = 10 ∧
    (∀ row ∈ claimC3_matrix size om, row.length = 400) := by
  have heff : (75/2 : ℚ) ≠ 0 := by norm_num
  have hkg : (size * (4/5) * 8760) / (75/2 : ℚ) ≠ 0 := by
    apply div_ne_zero _ heff
    exact mul_ne_zero (mul_ne_zero hsize (by norm_num)) (by norm_num)
  have hlook : Lcoh.electrolyzer_options soecName = some Lcoh.soec_spec := rfl
  have hannual : Lcoh.calculate_annual_hydrogen_output size soecName CAPACITY_FACTOR =
      Except.ok ((size * (4/5) * 8760) / (75/2)) := by
    rw [Lcoh.calculate_annual_hydrogen_output, hlook]
    show pydiv (size * CAPACITY_FACTOR * 8760) (75/2) = _
    rw [CAPACITY_FACTOR, pydiv_ok heff]
  have hcrf : calculate_crf WACC 10 = Except.ok (25937424601/159374246010) := by
    norm_num [calculate_crf, WACC, pypow, pydiv, exc_ok_bind]
  have hterms : Lcoh.lcoh_cost_terms soecName size om CAPACITY_FACTOR WACC true =
      Except.ok ((25937424601/159374246010) * Lcoh.total_capex 2500 size /
          ((size * (4/5) * 8760) / (75/2)),
        (size * (4/5) * 8760) / (75/2)) := by
    rw [Lcoh.lcoh_cost_terms, hlook]
    simp only [exc_ok_bind]
    rw [if_pos trivial]
    have hlife : ((Lcoh.soec_spec.lifetime_years : ℕ) : ℤ) = 10 := rfl
    rw [hlife, hcrf, exc_ok_bind, hannual, exc_ok_bind]
    have hcapex : Lcoh.soec_spec.capex_per_kw = 2500 := rfl
    rw [hcapex, pydiv_ok hkg, exc_ok_bind]
  have hcf8760 : ((4:ℚ)/5) * 8760 ≠ 0 := by norm_num
  have hfloor : ⌊(25000 : ℚ) / ((4/5) * 8760)⌋ = (3:ℤ) := by norm_num
  have hpyr : pyRange 10 3 = [0, 3, 6, 9] := by decide
  have hlen10 : (np_linspace (200:ℚ) 50 10).length = 10 := np_linspace_length 200 50 10
  have harr : Lcoh.calculate_stack_cost_arr Lcoh.soec_spec size CAPACITY_FACTOR =
      Except.ok ([0,3,6,9].flatMap fun y =>
        List.replicate 3 ((np_linspace (200:ℚ) 50 10).getD y 0 * size / ((3:ℤ) : ℚ))) := by
    have h := stackLoop_perYear_ok (np_linspace 200 50 10) size 3 [0,3,6,9]
      (by intro y hy; rw [hlen10]; fin_cases hy <;> norm_num)
    simp only [Lcoh.calculate_stack_cost_arr, Lcoh.soec_spec, CAPACITY_FACTOR,
      pydiv_ok hcf8760, exc_ok_bind]
    rw [hfloor, if_neg (by norm_num), hpyr, h]
    rfl
  have hm0len : (Lcoh.get_elec_cost_matrix Lcoh.soec_spec).length = 10 := by
    rw [Lcoh.get_elec_cost_matrix]
    simp only [List.length_map, List.length_range]
    rfl
  have harrlen : ((([0,3,6,9] : List ℕ).flatMap fun y =>
      List.replicate 3 ((np_linspace (200:ℚ) 50 10).getD y 0 * size / ((3:ℤ) : ℚ))).map
        (fun x => x / ((size * (4/5) * 8760) / (75/2)))).length = 12 := by
    rw [List.length_map,
      length_flatMap_replicate (fun y => (np_linspace (200:ℚ) 50 10).getD y 0 * size / ((3:ℤ) : ℚ)) 3]
    rfl
  have hmat100 : ∀ r ∈ Lcoh.get_elec_cost_matrix Lcoh.soec_spec, r.length = 100 := by
    intro r hr
    simp only [Lcoh.get_elec_cost_matrix] at hr
    rcases List.mem_map.mp hr with ⟨yr, _, rfl⟩
    exact elec_cost_row_length _ _
  refine ⟨?_, ?_, ?_⟩
  · rw [Lcoh.calculate_lcoh, hlook]
    simp only [exc_ok_bind]
    rw [hterms]
    simp only [exc_ok_bind]
    rw [harr]
    simp only [exc_ok_bind]
    rw [mapM_pydiv _ hkg]
    simp only [exc_ok_bind]
    rw [Lcoh.addStackAndOm, if_pos (by rw [hm0len, harrlen]; norm_num)]
    simp only [exc_ok_bind]
    rw [hstack_chain]
    simp only [claimC3_matrix, claimC3_pre]
    rw [harr]
    simp only [Except.toOption, Option.getD]
    rw [List.zipWith_map_right]
    simp only [real_where_max]
    rfl
  · simp only [claimC3_matrix, claimC3_pre]
    rw [harr]
    simp only [Except.toOption, Option.getD]
    rw [List.length_zipWith, List.length_map, List.length_zipWith, List.length_map,
      length_flatMap_replicate (fun y => (np_linspace (200:ℚ) 50 10).getD y 0 * size / ((3:ℤ) : ℚ)) 3,
      hm0len]
    rfl
  · intro row hrow
    simp only [claimC3_matrix, claimC3_pre] at hrow
    rw [harr] at hrow
    simp only [Except.toOption, Option.getD] at hrow
    rcases mem_zipWith_imp hrow with ⟨p, hp, a, ha, rfl⟩
    have hpre100 : ∀ r₂ ∈ List.zipWith
        (fun row (s : ℚ) => List.map (fun x => x + (s : ℝ) + (om : ℝ)) row)
        (Lcoh.get_elec_cost_matrix Lcoh.soec_spec)
        (List.map (fun s : ℚ => s / (size * CAPACITY_FACTOR * 8760 /
          Lcoh.soec_spec.efficiency_kwh_per_kg))
          ([0,3,6,9].flatMap fun y =>
            List.replicate 3 ((np_linspace (200:ℚ) 50 10).getD y 0 * size / ((3:ℤ) : ℚ)))),
        r₂.length = 100 := by
      intro r₂ hr₂
      rcases mem_zipWith_imp hr₂ with ⟨mrow, hm, s, _, rfl⟩
      rw [List.length_map]
      exact hmat100 mrow hm
    have h1 := hpre100 p hp
    rcases List.mem_map.mp ha with ⟨p2, hp2, rfl⟩
    have h2 := hpre100 p2 hp2
    simp [List.length_append, List.length_map, h1, h2]

/-- Witness for C3 at system size 1000 kW and O&M cost 1. -/
theorem claim_C3_matrix_concat_witness :
    Lcoh.calculate_lcoh soecName 1000 1 CAPACITY_FACTOR WACC true =
      Except.ok (claimC3_matrix 1000 1) ∧
    (claimC3_matrix 1000 1).length = 10 ∧
    (∀ row ∈ claimC3_matrix 1000 1, row.length = 400) :=
  claim_C3_matrix_concat 1000 1 (by norm_num)
